import Mathlib

/-!
Verification of the Budget Allocation & Growth Projection Engine of the
sturgeon-ai repository.  Python floats are modelled by exact rationals (ℚ);
Python `int(x)` truncation toward zero is modelled by `truncInt`; Python
exceptions are modelled by `Except` values.  Presentation-only strings
(recommendations, execution-priority text) are elided from the embeddings;
every numeric field of every returned dictionary is embedded.
-/

set_option maxRecDepth 10000

/- Python `int(x)` on a float: truncation toward zero. -/
def truncInt (q : ℚ) : ℤ :=
  if 0 ≤ q then ⌊q⌋ else -⌊-q⌋

/- Python `round(x, 1)`, modelled as round-half-up to one decimal place
(coincides with Python's rounding away from ties, and no call site in the
claims hits a tie). -/
def pyRound1 (q : ℚ) : ℚ :=
  ((⌊q * 10 + 1 / 2⌋ : ℤ) : ℚ) / 10

/-- Truth value of an `Except` computation having succeeded (no
exception). -/
def exceptOk {ε α : Type} : Except ε α → Bool
  | .ok _ => true
  | .error _ => false

deriving instance DecidableEq for Except

/-! ## src/roi_calculator/roi_calc.py -/

namespace RoiCalcPkg

/-- One entry of `CHANNEL_METRICS`. -/
structure RcMetrics where
  conversion_rate : ℚ
  average_customer_value : ℚ
deriving DecidableEq

/-- The table `CHANNEL_METRICS` (roi_calc.py lines 7-12). -/
def CHANNEL_METRICS : List (String × RcMetrics) :=
  [("linkedin_ads", ⟨0.0036, 2388⟩)]

def metricKeys : List String := CHANNEL_METRICS.map Prod.fst

def isKnown (channel : String) : Bool := decide (channel ∈ metricKeys)

/-- Errors the function can raise: `ValueError` for an unsupported channel,
`ZeroDivisionError` from the unguarded `/ budget`. -/
inductive RcErr where
  | valueError (msg : String)
  | zeroDivisionError
deriving DecidableEq

/-- The returned dictionary of `calculate_campaign_roi`. -/
structure RcResult where
  customers : ℤ
  revenue : ℚ
  roi : ℚ
deriving DecidableEq

def linkedinName : String := "linkedin_ads"

/-- Python `calculate_campaign_roi(channel, budget)` (roi_calc.py lines 15-53).
The channel membership test comes first; the ROI line divides by the
caller-supplied `budget` with no guard, so `budget == 0` raises
`ZeroDivisionError`. -/
def calculate_campaign_roi (channel : String) (budget : ℚ) :
    Except RcErr RcResult :=
  if isKnown channel then
    let metrics := (CHANNEL_METRICS.lookup channel).getD ⟨0, 0⟩
    let conversion_rate := metrics.conversion_rate
    let customer_value := metrics.average_customer_value
    let expected_customers : ℤ := truncInt (budget * conversion_rate)
    let expected_revenue : ℚ := (expected_customers : ℚ) * customer_value
    if budget = 0 then
      .error .zeroDivisionError
    else
      .ok { customers := expected_customers,
            revenue := expected_revenue,
            roi := pyRound1 (((expected_revenue - budget) / budget) * 100) }
  else
    .error (.valueError ("Unsupported channel: " ++ channel))

end RoiCalcPkg

/-! ## src/backend/roi_calc.py -/

namespace BackendAlloc

/-- The dict `DEFAULT_ALLOCATIONS` (roi_calc.py lines 15-19), as an insertion-ordered
association list (the Python dict). -/
def DEFAULT_ALLOCATIONS : List (String × ℚ) :=
  [("linkedin_ads", 0.60), ("content_marketing", 0.30),
   ("email_marketing", 0.10)]

inductive AllocErr where
  | valueError (msg : String)
deriving DecidableEq

/-- Python `k in dict` on the association-list model of a dict. -/
def keyMem (l : List (String × ℚ)) (k : String) : Bool :=
  l.any (fun p => p.1 == k)

/-- Python `dict[k] = v`: update in place if the key exists, else append
(dicts preserve insertion order). -/
def dictUpsert (l : List (String × ℚ)) (k : String) (v : ℚ) :
    List (String × ℚ) :=
  if keyMem l k then l.map (fun p => if p.1 == k then (p.1, v) else p)
  else l ++ [(k, v)]

/-- The first pass of `optimize_budget_allocation` (lines 63-70): build the
`allocation` dict and accumulate `total_weight`.  A duplicated channel id
re-assigns the same dict key but adds its weight to `total_weight` again,
exactly as in the Python loop. -/
def firstPass (weights : List (String × ℚ)) :
    List String → List (String × ℚ) × ℚ → List (String × ℚ) × ℚ
  | [], acc => acc
  | c :: cs, acc =>
      match weights.lookup c with
      | some w => firstPass weights cs (dictUpsert acc.1 c w, acc.2 + w)
      | none => firstPass weights cs (dictUpsert acc.1 c 0, acc.2)

/-- Python `optimize_budget_allocation` (roi_calc.py lines 25-83 and the module-level
convenience wrapper at lines 155-172). -/
def optimize_budget_allocation (total_budget : ℚ) (channels : List String)
    (custom_weights : Option (List (String × ℚ))) :
    Except AllocErr (List (String × ℚ)) :=
  if total_budget ≤ 0 then
    .error (.valueError ("Total budget must be positive"))
  else if channels = [] then
    .error (.valueError ("At least one channel must be specified"))
  else
    let weights :=
      match custom_weights with
      | some w => if w = [] then DEFAULT_ALLOCATIONS else w
      | none => DEFAULT_ALLOCATIONS
    let fp := firstPass weights channels ([], 0)
    let allocation := fp.1
    let total_weight := fp.2
    if total_weight > 0 then
      .ok (allocation.map (fun p =>
        if p.2 > 0 then (p.1, p.2 / total_weight * total_budget) else p))
    else
      .ok (allocation.map (fun p =>
        (p.1, total_budget / (channels.length : ℚ))))

end BackendAlloc

/-! ## src/backend/roi_calculator.py -/

namespace BackendCalc

/-- One entry of `CHANNEL_BENCHMARKS`; fields a given channel's dict does not
contain default to 0 and are never read on that channel's code path. -/
structure Benchmark where
  cpm : ℚ := 0
  ctr : ℚ := 0
  conversion_rate : ℚ := 0
  avg_customer_value : ℚ := 0
  sales_cycle_months : ℚ := 0
  cost_per_article : ℚ := 0
  articles_per_month : ℚ := 0
  traffic_per_article : ℚ := 0
  cost_per_send : ℚ := 0
  sends_per_month : ℚ := 0
  open_rate : ℚ := 0
  click_rate : ℚ := 0
  cpc : ℚ := 0
deriving DecidableEq

/-- The table `CHANNEL_BENCHMARKS` (roi_calculator.py lines 20-51). -/
def CHANNEL_BENCHMARKS : List (String × Benchmark) :=
  [("linkedin_ads",
    { cpm := 75, ctr := 0.025, conversion_rate := 0.08,
      avg_customer_value := 2400, sales_cycle_months := 3 }),
   ("content_marketing",
    { cost_per_article := 500, articles_per_month := 4,
      traffic_per_article := 500, conversion_rate := 0.03,
      avg_customer_value := 2400, sales_cycle_months := 4 }),
   ("email_marketing",
    { cost_per_send := 0.05, sends_per_month := 10000, open_rate := 0.25,
      click_rate := 0.12, conversion_rate := 0.06,
      avg_customer_value := 2400, sales_cycle_months := 2 }),
   ("google_ads",
    { cpc := 8.5, conversion_rate := 0.05, avg_customer_value := 2400,
      sales_cycle_months := 3 })]

/-- Configuration constants (roi_calculator.py lines 11-17). -/
def VIRAL_COEFFICIENT : ℚ := 0.05

def MONTHLY_SUBSCRIPTION_VALUE : ℚ := 200

def ALLOCATION_STRATEGY : List ℚ := [0.50, 0.30, 0.20]

def CUSTOMER_RETENTION_YEARS : ℚ := 2

def ROI_TEST_BUDGET : ℚ := 1000

def ROI_TEST_DURATION : ℚ := 3

def benchKeys : List String := CHANNEL_BENCHMARKS.map Prod.fst

def isKnown (channel : String) : Bool := decide (channel ∈ benchKeys)

/-- Channel-id constants, for use in theorem statements. -/
def linkedinName : String := "linkedin_ads"

def contentName : String := "content_marketing"

def emailName : String := "email_marketing"

def googleName : String := "google_ads"

/-- The numeric content of the dict returned by `calculate_campaign_roi`
(recommendation text elided). -/
structure CampaignROI where
  channel : String
  budget : ℚ
  duration_months : ℚ
  monthly_spend : ℚ
  customers_acquired : ℤ
  total_revenue : ℚ
  profit : ℚ
  roi_percentage : ℚ
  roi_multiple : ℚ
  cost_per_customer : ℚ
  ltv_cac : ℚ
  payback_months : ℚ
deriving DecidableEq

/-- Body of `calculate_campaign_roi` (lines 53-138) after the channel
membership guard has passed; the final `else` of the Python `if/elif` chain
does not exist (a genuinely unknown channel never reaches it), modelled by 0.
Note that the stage counts stay fractional: only the reported
`customers_acquired` applies `int()`, and `total_revenue` multiplies the
fractional customer count. -/
def calcOk (channel : String) (budget duration_months : ℚ) : CampaignROI :=
  let benchmarks := (CHANNEL_BENCHMARKS.lookup channel).getD {}
  let monthly_spend := budget / duration_months
  let customers : ℚ :=
    if channel = "linkedin_ads" then
      let impressions := (budget / benchmarks.cpm) * 1000
      let clicks := impressions * benchmarks.ctr
      clicks * benchmarks.conversion_rate
    else if channel = "content_marketing" then
      let total_articles := benchmarks.articles_per_month * duration_months
      let total_traffic := total_articles * benchmarks.traffic_per_article
      total_traffic * benchmarks.conversion_rate
    else if channel = "email_marketing" then
      let total_sends := benchmarks.sends_per_month * duration_months
      let opens := total_sends * benchmarks.open_rate
      let clicks := opens * benchmarks.click_rate
      clicks * benchmarks.conversion_rate
    else if channel = "google_ads" then
      let clicks := budget / benchmarks.cpc
      clicks * benchmarks.conversion_rate
    else 0
  let total_revenue := customers * benchmarks.avg_customer_value
  let profit := total_revenue - budget
  let roi_percentage := if budget > 0 then (profit / budget) * 100 else 0
  let roi_multiple := if budget > 0 then total_revenue / budget else 0
  let cost_per_customer := if customers > 0 then budget / customers else 0
  let customer_lifetime_value :=
    benchmarks.avg_customer_value * CUSTOMER_RETENTION_YEARS
  let ltv_cac :=
    if cost_per_customer > 0 then customer_lifetime_value / cost_per_customer
    else 0
  let payback_months :=
    if benchmarks.avg_customer_value > 0 then
      cost_per_customer / (benchmarks.avg_customer_value / 12)
    else 0
  { channel := channel, budget := budget,
    duration_months := duration_months, monthly_spend := monthly_spend,
    customers_acquired := truncInt customers, total_revenue := total_revenue,
    profit := profit, roi_percentage := roi_percentage,
    roi_multiple := roi_multiple, cost_per_customer := cost_per_customer,
    ltv_cac := ltv_cac, payback_months := payback_months }

/-- The fractional (unfloored) customer count of each channel's funnel,
stated standalone for comparison with `calcOk`: the code floors only the
*reported* customer count, at output time. -/
def fractionalCustomers (channel : String) (budget duration_months : ℚ) :
    ℚ :=
  let benchmarks := (CHANNEL_BENCHMARKS.lookup channel).getD {}
  if channel = "linkedin_ads" then
    ((budget / benchmarks.cpm) * 1000) * benchmarks.ctr *
      benchmarks.conversion_rate
  else if channel = "content_marketing" then
    (benchmarks.articles_per_month * duration_months) *
      benchmarks.traffic_per_article * benchmarks.conversion_rate
  else if channel = "email_marketing" then
    (benchmarks.sends_per_month * duration_months) * benchmarks.open_rate *
      benchmarks.click_rate * benchmarks.conversion_rate
  else if channel = "google_ads" then
    (budget / benchmarks.cpc) * benchmarks.conversion_rate
  else 0

/-- The `ValueError` raised for an unknown channel (line 66) names the
invalid id and carries the list of valid ids. -/
structure UnknownChannelMsg where
  invalid : String
  available : List String
deriving DecidableEq

inductive CalcErr where
  | unknownChannel (m : UnknownChannelMsg)
deriving DecidableEq

/-- Python `calculate_campaign_roi` (lines 53-138): membership guard then the body. -/
def calculate_campaign_roi (channel : String) (budget duration_months : ℚ) :
    Except CalcErr CampaignROI :=
  if isKnown channel then .ok (calcOk channel budget duration_months)
  else .error (.unknownChannel ⟨channel, benchKeys⟩)

/-- Stable insertion step of a descending sort (the model of Python's stable
`sorted(..., reverse=True)`). -/
def insertDesc {α : Type} (key : α → ℚ) (x : α) : List α → List α
  | [] => [x]
  | y :: ys => if key y ≤ key x then x :: y :: ys else y :: insertDesc key x ys

/-- Stable descending insertion sort. -/
def sortDesc {α : Type} (key : α → ℚ) : List α → List α
  | [] => []
  | x :: xs => insertDesc key x (sortDesc key xs)

/-- Keep the first occurrence of each element not already seen. -/
def dedupFirstAux (seen : List String) : List String → List String
  | [] => []
  | c :: cs =>
      if c ∈ seen then dedupFirstAux seen cs
      else c :: dedupFirstAux (c :: seen) cs

/-- Keep the first occurrence of each element (the key order of a Python
dict built by repeated assignment). -/
def dedupFirst (l : List String) : List String := dedupFirstAux [] l

/-- One channel's entry in `optimized_allocation`. -/
structure ChannelAlloc where
  budget : ℚ
  percentage : ℤ
  expected_customers : ℤ
  expected_revenue : ℚ
  roi : ℚ
deriving DecidableEq

/-- The numeric content of the dict returned by `optimize_budget_allocation`
(execution-priority text elided). -/
structure OptPlan where
  total_budget : ℚ
  optimized_allocation : List (String × ChannelAlloc)
  total_customers : ℤ
  total_revenue : ℚ
  blended_roi : ℚ
deriving DecidableEq

/-- The scoring-and-ranking phase of `optimize_budget_allocation`
(roi_calculator.py lines 151-159): the `channel_rois` dict keeps the first
occurrence of each *known* channel (unknown candidates are silently dropped
by the `if channel in self.CHANNEL_BENCHMARKS` guard at line 154), then the
channels are stably sorted by descending test ROI. -/
def rankedChannels (channels : List String) : List (String × ℚ) :=
  sortDesc (fun p => p.2)
    ((dedupFirst (channels.filter (fun c => isKnown c))).map
      (fun c =>
        (c, (calcOk c ROI_TEST_BUDGET ROI_TEST_DURATION).roi_percentage)))

/-- The weighting-and-evaluation phase of `optimize_budget_allocation`
(lines 161-197): truncation to the top 3 channels, tiered percentages
normalised to sum to 1, per-channel budgets and projected results. -/
def tierAllocation (total_budget : ℚ)
    (sorted_channels : List (String × ℚ)) : List (String × ChannelAlloc) :=
  let sorted_channels :=
    if ALLOCATION_STRATEGY.length < sorted_channels.length then
      sorted_channels.take ALLOCATION_STRATEGY.length
    else sorted_channels
  let allocation_percentages := ALLOCATION_STRATEGY.take sorted_channels.length
  let total_allocated := allocation_percentages.sum
  let allocation_percentages :=
    if total_allocated < 1 ∧ 0 < allocation_percentages.length then
      allocation_percentages.map (fun p => p * (1 / total_allocated))
    else allocation_percentages
  (sorted_channels.zip allocation_percentages).map (fun pr =>
    let percentage := pr.2
    let channel_budget := total_budget * percentage
    let results := calcOk pr.1.1 channel_budget 3
    (pr.1.1, (⟨channel_budget, truncInt (percentage * 100),
               results.customers_acquired, results.total_revenue,
               results.roi_percentage⟩ : ChannelAlloc)))

/-- Python `optimize_budget_allocation` (roi_calculator.py lines 140-224): ranking,
tiered weighting, and aggregation.  There is no validation of `total_budget`
or of emptiness of `channels`. -/
def optimize_budget_allocation (total_budget : ℚ) (channels : List String) :
    OptPlan :=
  let entries := tierAllocation total_budget (rankedChannels channels)
  let total_customers : ℤ := (entries.map (fun e => e.2.expected_customers)).sum
  let total_revenue : ℚ := (entries.map (fun e => e.2.expected_revenue)).sum
  let blended_roi :=
    if total_budget > 0 then
      ((total_revenue - total_budget) / total_budget) * 100
    else 0
  { total_budget := total_budget, optimized_allocation := entries,
    total_customers := total_customers, total_revenue := total_revenue,
    blended_roi := blended_roi }

/-- One record of `monthly_breakdown` in `project_growth_trajectory`. -/
structure BRow where
  month : ℕ
  customers : ℤ
  cumulative_customers : ℤ
  mrr : ℚ
  cumulative_revenue : ℚ
  investment : ℚ
  cumulative_investment : ℚ
deriving DecidableEq

/-- The fixed `channel_allocation` of the projector (lines 238-242). -/
def proj_channel_allocation : List (String × ℚ) :=
  [("linkedin_ads", 0.40), ("content_marketing", 0.30),
   ("email_marketing", 0.30)]

/-- The per-channel monthly-customer computation inlined in the projector's
loop (lines 261-276). -/
def projChannelCustomers (channel : String) (channel_budget : ℚ) : ℚ :=
  let benchmarks := (CHANNEL_BENCHMARKS.lookup channel).getD {}
  if channel = "linkedin_ads" then
    (((channel_budget / benchmarks.cpm) * 1000) * benchmarks.ctr) *
      benchmarks.conversion_rate
  else if channel = "content_marketing" then
    (benchmarks.traffic_per_article * benchmarks.articles_per_month) *
      benchmarks.conversion_rate
  else if channel = "email_marketing" then
    ((benchmarks.sends_per_month * benchmarks.open_rate) *
      benchmarks.click_rate) * benchmarks.conversion_rate
  else 0

/-- Organic new customers of one month: the sum over the channel mix. -/
def monthOrganic (monthly_budget : ℚ) : ℚ :=
  (proj_channel_allocation.map
    (fun pr => projChannelCustomers pr.1 (monthly_budget * pr.2))).sum

/-- The month loop of `project_growth_trajectory` (lines 252-301), unrolled
as a recursion over the remaining number of months. -/
def projectRows (monthly_budget : ℚ) :
    ℕ → ℕ → ℚ → ℚ → ℚ → List BRow
  | 0, _, _, _, _ => []
  | k + 1, month, cumC, cumR, cumI =>
      let viral_customers := cumC * VIRAL_COEFFICIENT
      let month_customers := monthOrganic monthly_budget + viral_customers
      let cumC' := cumC + month_customers
      let month_revenue := cumC' * MONTHLY_SUBSCRIPTION_VALUE
      let cumR' := cumR + month_revenue
      let cumI' := cumI + monthly_budget
      ⟨month, truncInt month_customers, truncInt cumC', month_revenue, cumR',
        monthly_budget, cumI'⟩ ::
        projectRows monthly_budget k (month + 1) cumC' cumR' cumI'

structure Milestones where
  first_10_customers : ℕ
  first_50_customers : ℕ
  first_100_customers : ℕ
  break_even_month : ℕ
deriving DecidableEq

/-- Python `next((m['month'] for m in breakdown if cond(m)), 0)`: the month
of the first qualifying record, with default 0. -/
def firstMonthWhere (p : BRow → Bool) (l : List BRow) : ℕ :=
  match l.find? p with
  | some m => m.month
  | none => 0

/-- The numeric content of the dict returned by
`project_growth_trajectory`. -/
structure Projection where
  monthly_budget : ℚ
  total_investment : ℚ
  monthly_breakdown : List BRow
  total_customers : ℤ
  mrr : ℚ
  arr : ℚ
  total_revenue : ℚ
  roi_percentage : ℚ
  key_milestones : Milestones
deriving DecidableEq

/-- Python `project_growth_trajectory` (roi_calculator.py lines 226-334).  Python
reads `monthly_breakdown[-1]`, an `IndexError` when `duration_months = 0`;
the model returns the all-zero row in that out-of-contract case. -/
def project_growth_trajectory (monthly_budget : ℚ) (duration_months : ℕ) :
    Projection :=
  let monthly_breakdown :=
    projectRows monthly_budget duration_months 1 0 0 0
  let total_investment := monthly_budget * (duration_months : ℚ)
  let lastRow := monthly_breakdown.getLastD ⟨0, 0, 0, 0, 0, 0, 0⟩
  let cumulative_revenue := lastRow.cumulative_revenue
  let final_month_mrr := lastRow.mrr
  let annual_recurring_revenue := final_month_mrr * 12
  let roi_percentage :=
    if total_investment > 0 then
      ((cumulative_revenue - total_investment) / total_investment) * 100
    else 0
  { monthly_budget := monthly_budget, total_investment := total_investment,
    monthly_breakdown := monthly_breakdown,
    total_customers := lastRow.cumulative_customers,
    mrr := final_month_mrr, arr := annual_recurring_revenue,
    total_revenue := cumulative_revenue, roi_percentage := roi_percentage,
    key_milestones :=
      { first_10_customers :=
          firstMonthWhere (fun m => decide (10 ≤ m.cumulative_customers))
            monthly_breakdown,
        first_50_customers :=
          firstMonthWhere (fun m => decide (50 ≤ m.cumulative_customers))
            monthly_breakdown,
        first_100_customers :=
          firstMonthWhere (fun m => decide (100 ≤ m.cumulative_customers))
            monthly_breakdown,
        break_even_month :=
          firstMonthWhere
            (fun m => decide (m.cumulative_investment ≤ m.cumulative_revenue))
            monthly_breakdown } }

end BackendCalc

/-! ## src/roi_calculator.py -/

namespace TopCalc

/-- One entry of `channel_metrics` (roi_calculator.py lines 12-59); fields a
given channel's dict does not contain default to 0 and are never read on that
channel's code path. -/
structure Metrics where
  cpm : ℚ := 0
  ctr : ℚ := 0
  cpc : ℚ := 0
  conversion_rate : ℚ := 0
  avg_deal_size : ℚ := 0
  sales_cycle_months : ℚ := 0
  close_rate : ℚ := 0
  cost_per_article : ℚ := 0
  articles_per_month : ℚ := 0
  avg_monthly_traffic : ℚ := 0
  lead_conversion_rate : ℚ := 0
  cost_per_campaign : ℚ := 0
  campaigns_per_month : ℚ := 0
  list_size : ℚ := 0
  open_rate : ℚ := 0
  click_rate : ℚ := 0
  monthly_cost : ℚ := 0
  ramp_up_months : ℚ := 0
  mature_monthly_traffic : ℚ := 0
deriving DecidableEq

def channel_metrics : List (String × Metrics) :=
  [("linkedin_ads",
    { cpm := 35, ctr := 0.022, cpc := 8.50, conversion_rate := 0.025,
      avg_deal_size := 5000, sales_cycle_months := 3, close_rate := 0.20 }),
   ("content_marketing",
    { cost_per_article := 500, articles_per_month := 4,
      avg_monthly_traffic := 2000, lead_conversion_rate := 0.03,
      avg_deal_size := 5000, sales_cycle_months := 4, close_rate := 0.15 }),
   ("email_marketing",
    { cost_per_campaign := 200, campaigns_per_month := 4, list_size := 1000,
      open_rate := 0.25, click_rate := 0.08, conversion_rate := 0.05,
      avg_deal_size := 5000, sales_cycle_months := 2, close_rate := 0.25 }),
   ("google_ads",
    { cpc := 12, ctr := 0.035, conversion_rate := 0.03,
      avg_deal_size := 5000, sales_cycle_months := 2, close_rate := 0.18 }),
   ("seo",
    { monthly_cost := 2000, ramp_up_months := 6,
      mature_monthly_traffic := 5000, lead_conversion_rate := 0.025,
      avg_deal_size := 5000, sales_cycle_months := 4, close_rate := 0.15 })]

/-- Business metrics (lines 61-64). -/
def avg_customer_lifetime_value : ℚ := 25000

def avg_monthly_recurring_revenue : ℚ := 149

def churn_rate_monthly : ℚ := 0.05

def metricKeys : List String := channel_metrics.map Prod.fst

def isKnown (channel : String) : Bool := decide (channel ∈ metricKeys)

/-- The numeric content of the dict returned by `calculate_campaign_roi`
(recommendation text elided). -/
structure TopROI where
  channel : String
  budget : ℚ
  duration_months : ℚ
  monthly_spend : ℚ
  total_leads : ℤ
  total_customers : ℤ
  total_revenue : ℚ
  lifetime_value : ℚ
  cost_per_lead : ℚ
  cost_per_customer : ℚ
  ltv_to_cac : ℚ
  payback_period_months : ℚ
  net_profit : ℚ
  roi_percentage : ℚ
  return_multiple : ℚ
deriving DecidableEq

/-- Body of `calculate_campaign_roi` (lines 66-169) after the channel guard;
the fractional (lead, customer) counts of the channel-specific funnel. -/
def funnel (channel : String) (budget duration_months : ℚ) : ℚ × ℚ :=
  let metrics := (channel_metrics.lookup channel).getD {}
  if channel = "linkedin_ads" then
    let total_clicks := budget / metrics.cpc
    let total_leads := total_clicks * metrics.conversion_rate
    (total_leads, total_leads * metrics.close_rate)
  else if channel = "content_marketing" then
    let total_traffic := metrics.avg_monthly_traffic * duration_months
    let total_leads := total_traffic * metrics.lead_conversion_rate
    (total_leads, total_leads * metrics.close_rate)
  else if channel = "email_marketing" then
    let total_campaigns := metrics.campaigns_per_month * duration_months
    let total_opens := total_campaigns * metrics.list_size * metrics.open_rate
    let total_clicks := total_opens * metrics.click_rate
    let total_leads := total_clicks * metrics.conversion_rate
    (total_leads, total_leads * metrics.close_rate)
  else if channel = "google_ads" then
    let total_clicks := budget / metrics.cpc
    let total_leads := total_clicks * metrics.conversion_rate
    (total_leads, total_leads * metrics.close_rate)
  else if channel = "seo" then
    let traffic_multiplier :=
      if duration_months ≤ metrics.ramp_up_months then
        duration_months / metrics.ramp_up_months
      else 1
    let total_traffic :=
      metrics.mature_monthly_traffic * duration_months * traffic_multiplier
    let total_leads := total_traffic * metrics.lead_conversion_rate
    (total_leads, total_leads * metrics.close_rate)
  else (0, 0)

def calcOk (channel : String) (budget duration_months : ℚ) : TopROI :=
  let metrics := (channel_metrics.lookup channel).getD {}
  let monthly_spend := budget / duration_months
  let fc := funnel channel budget duration_months
  let total_leads := fc.1
  let total_customers := fc.2
  let total_revenue := total_customers * metrics.avg_deal_size
  let lifetime_value := total_customers * avg_customer_lifetime_value
  let net_profit := total_revenue - budget
  let roi_percentage := if budget > 0 then (net_profit / budget) * 100 else 0
  let cost_per_lead := if total_leads > 0 then budget / total_leads else 0
  let cost_per_customer :=
    if total_customers > 0 then budget / total_customers else 0
  let ltv_to_cac :=
    if cost_per_customer > 0 then
      avg_customer_lifetime_value / cost_per_customer
    else 0
  let payback_period_months :=
    if avg_monthly_recurring_revenue > 0 then
      cost_per_customer / avg_monthly_recurring_revenue
    else 0
  let return_multiple := if budget > 0 then total_revenue / budget else 0
  { channel := channel, budget := budget,
    duration_months := duration_months, monthly_spend := monthly_spend,
    total_leads := truncInt total_leads,
    total_customers := truncInt total_customers,
    total_revenue := total_revenue, lifetime_value := lifetime_value,
    cost_per_lead := cost_per_lead, cost_per_customer := cost_per_customer,
    ltv_to_cac := ltv_to_cac,
    payback_period_months := payback_period_months, net_profit := net_profit,
    roi_percentage := roi_percentage, return_multiple := return_multiple }

inductive TopErr where
  | unknownChannel (invalid : String) (available : List String)
deriving DecidableEq

/-- Python `calculate_campaign_roi` (lines 66-169): membership guard, then body. -/
def calculate_campaign_roi (channel : String) (budget duration_months : ℚ) :
    Except TopErr TopROI :=
  if isKnown channel then .ok (calcOk channel budget duration_months)
  else .error (.unknownChannel channel metricKeys)

/-- One record of `monthly_breakdown` in `project_growth_trajectory`
(lines 300-308). -/
structure TRow where
  month : ℕ
  spend : ℚ
  customers : ℤ
  cumulative_customers : ℤ
  mrr : ℚ
  revenue : ℚ
  cumulative_revenue : ℚ
deriving DecidableEq

/-- The fixed `channel_allocation` of the projector (lines 266-271). -/
def proj_allocation : List (String × ℚ) :=
  [("linkedin_ads", 0.35), ("content_marketing", 0.30),
   ("email_marketing", 0.20), ("seo", 0.15)]

/-- One month's per-channel results (lines 283-292): each channel's budget is
its share of the monthly budget scaled by the learning-curve multiplier, fed
to the single-channel calculator with duration 1. -/
def topMonthResults (monthly_budget : ℚ) (duration_months : ℕ)
    (month : ℕ) : List TopROI :=
  proj_allocation.map (fun pr =>
    let channel_budget := monthly_budget * pr.2
    let efficiency_multiplier :=
      min 1 (0.5 + ((month : ℚ) / (duration_months : ℚ)) * 0.5)
    let adjusted_budget := channel_budget * efficiency_multiplier
    calcOk pr.1 adjusted_budget 1)

/-- The month loop of `project_growth_trajectory` (lines 278-308); the
per-month customer and revenue sums add the *reported* integer customer
counts and the fractional revenues of `calculate_campaign_roi` with
duration 1. -/
def projectRows (monthly_budget : ℚ) (duration_months : ℕ) :
    ℕ → ℕ → ℤ → ℚ → List TRow
  | 0, _, _, _ => []
  | k + 1, month, cumC, cumR =>
      let results := topMonthResults monthly_budget duration_months month
      let month_customers : ℤ := (results.map (fun r => r.total_customers)).sum
      let month_revenue : ℚ := (results.map (fun r => r.total_revenue)).sum
      let cumC' := cumC + month_customers
      let cumR' := cumR + month_revenue
      let mrr := (cumC' : ℚ) * avg_monthly_recurring_revenue *
        (1 - churn_rate_monthly) ^ month
      ⟨month, monthly_budget, month_customers, cumC', mrr, month_revenue,
        cumR'⟩ ::
        projectRows monthly_budget duration_months k (month + 1) cumC' cumR'

def firstMonthT (p : TRow → Bool) (l : List TRow) : ℕ :=
  match l.find? p with
  | some m => m.month
  | none => 0

/-- The numeric content of the dict returned by `project_growth_trajectory`
(lines 254-351; strategic-insight text elided).  Python reads
`monthly_breakdown[-1]` and divides by `total_investment` unguarded; both are
out of contract for `duration_months = 0`, where the model returns the
zero row / total division. -/
structure TProjection where
  monthly_budget : ℚ
  total_investment : ℚ
  monthly_breakdown : List TRow
  total_customers : ℤ
  total_revenue : ℚ
  final_mrr : ℚ
  total_roi : ℚ
  break_even_month : ℕ
  profitable_mrr_month : ℕ
  months_to_100_customers : ℕ
deriving DecidableEq

def project_growth_trajectory (monthly_budget : ℚ) (duration_months : ℕ) :
    TProjection :=
  let monthly_breakdown :=
    projectRows monthly_budget duration_months duration_months 1 0 0
  let total_investment := monthly_budget * (duration_months : ℚ)
  let final_month := monthly_breakdown.getLastD ⟨0, 0, 0, 0, 0, 0, 0⟩
  { monthly_budget := monthly_budget, total_investment := total_investment,
    monthly_breakdown := monthly_breakdown,
    total_customers := final_month.cumulative_customers,
    total_revenue := final_month.cumulative_revenue,
    final_mrr := final_month.mrr,
    total_roi :=
      ((final_month.cumulative_revenue - total_investment) /
        total_investment) * 100,
    break_even_month :=
      firstMonthT
        (fun m => decide ((m.month : ℚ) * monthly_budget ≤
          m.cumulative_revenue)) monthly_breakdown,
    profitable_mrr_month :=
      firstMonthT (fun m => decide (monthly_budget ≤ m.mrr))
        monthly_breakdown,
    months_to_100_customers :=
      firstMonthT (fun m => decide (100 ≤ m.cumulative_customers))
        monthly_breakdown }

end TopCalc

/-! ## General lemmas about the embeddings -/

theorem truncInt_mono {a b : ℚ} (ha : 0 ≤ a) (hab : a ≤ b) :
    truncInt a ≤ truncInt b := by
  unfold truncInt
  rw [if_pos ha, if_pos (le_trans ha hab)]
  exact Int.floor_le_floor hab

theorem truncInt_nonneg {a : ℚ} (ha : 0 ≤ a) : 0 ≤ truncInt a := by
  unfold truncInt
  rw [if_pos ha]
  exact Int.floor_nonneg.mpr ha

open BackendCalc in
theorem length_insertDesc {α : Type} (key : α → ℚ) (x : α) :
    ∀ l : List α, (insertDesc key x l).length = l.length + 1 := by
  intro l
  induction l with
  | nil => simp [insertDesc]
  | cons y ys ih =>
      rw [insertDesc]
      split
      · simp
      · simp [ih]

open BackendCalc in
theorem length_sortDesc {α : Type} (key : α → ℚ) :
    ∀ l : List α, (sortDesc key l).length = l.length := by
  intro l
  induction l with
  | nil => rfl
  | cons x xs ih => rw [sortDesc, length_insertDesc, ih]; rfl

open BackendCalc in
theorem dedupFirstAux_eq_self :
    ∀ (l seen : List String), l.Nodup → (∀ c ∈ l, c ∉ seen) →
      dedupFirstAux seen l = l := by
  intro l
  induction l with
  | nil => intro seen _ _; rfl
  | cons c cs ih =>
      intro seen hnd hs
      rw [dedupFirstAux, if_neg (hs c (List.mem_cons_self c cs))]
      rw [ih (c :: seen) (List.nodup_cons.mp hnd).2]
      intro x hx
      simp only [List.mem_cons, not_or]
      exact ⟨fun hxc => (List.nodup_cons.mp hnd).1 (hxc ▸ hx),
             hs x (List.mem_cons_of_mem c hx)⟩

open BackendCalc in
theorem dedupFirst_eq_self (l : List String) (h : l.Nodup) :
    dedupFirst l = l :=
  dedupFirstAux_eq_self l [] h (by simp)

open BackendCalc in
theorem tier_budgets_one (B : ℚ) (a : String × ℚ) :
    (tierAllocation B [a]).map (fun e => e.2.budget) = [B] := by
  norm_num [tierAllocation, ALLOCATION_STRATEGY]

open BackendCalc in
theorem tier_budgets_two (B : ℚ) (a b : String × ℚ) :
    (tierAllocation B [a, b]).map (fun e => e.2.budget) =
      [B * (5 / 8), B * (3 / 8)] := by
  norm_num [tierAllocation, ALLOCATION_STRATEGY]

open BackendCalc in
theorem tier_budgets_three (B : ℚ) (a b c : String × ℚ)
    (t : List (String × ℚ)) :
    (tierAllocation B (a :: b :: c :: t)).map (fun e => e.2.budget) =
      [B * (1 / 2), B * (3 / 10), B * (1 / 5)] := by
  rw [tierAllocation]
  split
  · norm_num [ALLOCATION_STRATEGY]
  · next h =>
      rcases t with _ | ⟨x, xs⟩
      · norm_num [ALLOCATION_STRATEGY]
      · exfalso
        apply h
        simp [ALLOCATION_STRATEGY]

unseal Rat.add Rat.mul Rat.inv Rat.sub Rat.ofScientific Nat.gcd in
theorem default_lookup_pos (c : String)
    (h : c ∈ BackendAlloc.DEFAULT_ALLOCATIONS.map Prod.fst) :
    ∃ w, BackendAlloc.DEFAULT_ALLOCATIONS.lookup c = some w ∧ 0 < w := by
  simp [BackendAlloc.DEFAULT_ALLOCATIONS] at h
  rcases h with h | h | h <;> subst h
  · exact ⟨0.60, by decide, by decide⟩
  · exact ⟨0.30, by decide, by decide⟩
  · exact ⟨0.10, by decide, by decide⟩


open BackendAlloc in
theorem keyMem_false {l : List (String × ℚ)} {c : String}
    (h : c ∉ l.map Prod.fst) : keyMem l c = false := by
  simp only [keyMem, List.any_eq_false]
  intro p hp
  simp only [beq_iff_eq]
  intro hpc
  exact h (hpc ▸ List.mem_map_of_mem Prod.fst hp)

open BackendAlloc in
theorem firstPass_spec (weights : List (String × ℚ)) :
    ∀ (chans : List String) (acc : List (String × ℚ) × ℚ),
      chans.Nodup →
      (∀ c ∈ chans, (weights.lookup c).isSome = true) →
      (∀ c ∈ chans, c ∉ acc.1.map Prod.fst) →
      firstPass weights chans acc =
        (acc.1 ++ chans.map (fun c => (c, (weights.lookup c).getD 0)),
         acc.2 + (chans.map (fun c => (weights.lookup c).getD 0)).sum) := by
  intro chans
  induction chans with
  | nil => intro acc _ _ _; simp [firstPass]
  | cons c cs ih =>
      intro acc hnd hsome hkeys
      obtain ⟨w, hw⟩ := Option.isSome_iff_exists.mp
        (hsome c (List.mem_cons_self c cs))
      rw [firstPass, hw]
      dsimp only
      have hupd : dictUpsert acc.1 c w = acc.1 ++ [(c, w)] := by
        rw [dictUpsert,
          if_neg (by rw [keyMem_false (hkeys c (List.mem_cons_self c cs))]
                     exact Bool.false_ne_true)]
      rw [hupd, ih (acc.1 ++ [(c, w)], acc.2 + w) (List.nodup_cons.mp hnd).2
        (fun x hx => hsome x (List.mem_cons_of_mem c hx)) ?_]
      · simp [hw, List.append_assoc]
        ring
      · intro x hx
        simp only [List.map_append, List.mem_append, not_or]
        refine ⟨hkeys x (List.mem_cons_of_mem c hx), ?_⟩
        simp only [List.map_cons, List.map_nil, List.mem_singleton]
        exact fun hxc => (List.nodup_cons.mp hnd).1 (hxc ▸ hx)

theorem sum_map_div_mul (W B : ℚ) (l : List ℚ) :
    (l.map (fun w => w / W * B)).sum = l.sum / W * B := by
  induction l with
  | nil => simp
  | cons a t ih => simp [ih]; ring

open BackendCalc in
theorem projectRows_length (B : ℚ) :
    ∀ (k m : ℕ) (c r i : ℚ), (projectRows B k m c r i).length = k := by
  intro k
  induction k with
  | zero => intro m c r i; rfl
  | succ n ih => intro m c r i; simp only [projectRows, List.length_cons, ih]

open BackendCalc in
theorem projectRows_month_bounds (B : ℚ) :
    ∀ (k m0 : ℕ) (c r i : ℚ), ∀ x ∈ projectRows B k m0 c r i,
      m0 ≤ x.month ∧ x.month < m0 + k := by
  intro k
  induction k with
  | zero => intro m0 c r i x hx; simp [projectRows] at hx
  | succ n ih =>
      intro m0 c r i x hx
      simp only [projectRows] at hx
      rcases List.mem_cons.mp hx with h | h
      · subst h
        dsimp only
        omega
      · obtain ⟨h1, h2⟩ := ih (m0 + 1) _ _ _ x h
        omega

theorem getLastD_mem {α : Type} :
    ∀ (l : List α) (d : α), l ≠ [] → l.getLastD d ∈ l := by
  intro l
  induction l with
  | nil => intro d h; exact absurd rfl h
  | cons x xs ih =>
      intro d _
      rw [List.getLastD_cons]
      rcases hxs : xs with _ | ⟨y, ys⟩
      · subst hxs; simp [List.getLastD]
      · subst hxs
        exact List.mem_cons_of_mem x (ih x (List.cons_ne_nil y ys))

open BackendCalc in
theorem firstMonthWhere_eq_zero {p : BRow → Bool} {l : List BRow}
    (h : ∀ x ∈ l, p x = false) : firstMonthWhere p l = 0 := by
  rw [firstMonthWhere, List.find?_eq_none.mpr (fun x hx => by
    rw [h x hx]; exact Bool.false_ne_true)]

open BackendCalc in
theorem firstMonthWhere_mem {p : BRow → Bool} {l : List BRow}
    (h : ∃ x ∈ l, p x = true) :
    ∃ y ∈ l, p y = true ∧ firstMonthWhere p l = y.month := by
  rcases hf : l.find? p with _ | y
  · obtain ⟨x, hx, hpx⟩ := h
    rw [List.find?_eq_none] at hf
    exact absurd hpx (hf x hx)
  · exact ⟨y, List.mem_of_find?_eq_some hf, List.find?_some hf,
      by rw [firstMonthWhere, hf]⟩

open TopCalc in
theorem topMonthCustomers_nonneg (B : ℚ) (hB : 0 ≤ B) (d m : ℕ) :
    0 ≤ ((topMonthResults B d m).map (fun r => r.total_customers)).sum := by
  have hcl : ("content_marketing" : String) ≠ "linkedin_ads" := by decide
  have hel : ("email_marketing" : String) ≠ "linkedin_ads" := by decide
  have hec : ("email_marketing" : String) ≠ "content_marketing" := by decide
  have hsl : ("seo" : String) ≠ "linkedin_ads" := by decide
  have hsc : ("seo" : String) ≠ "content_marketing" := by decide
  have hse : ("seo" : String) ≠ "email_marketing" := by decide
  have hsg : ("seo" : String) ≠ "google_ads" := by decide
  have bcl : (("content_marketing" : String) == "linkedin_ads") = false := by
    decide
  have bel : (("email_marketing" : String) == "linkedin_ads") = false := by
    decide
  have bec : (("email_marketing" : String) == "content_marketing") = false :=
    by decide
  have bsl : (("seo" : String) == "linkedin_ads") = false := by decide
  have bsc : (("seo" : String) == "content_marketing") = false := by decide
  have bse : (("seo" : String) == "email_marketing") = false := by decide
  have bsg : (("seo" : String) == "google_ads") = false := by decide
  have heff : (0 : ℚ) ≤ 1 ⊓ (1 / 2 + (m : ℚ) / (d : ℚ) * (1 / 2)) := by
    apply le_min
    · norm_num
    · positivity
  simp only [topMonthResults, proj_allocation, List.map_cons, List.map_nil,
    calcOk, funnel, channel_metrics, List.lookup, List.sum_cons, List.sum_nil,
    hcl, hel, hec, hsl, hsc, hse, hsg, bcl, bel, bec, bsl, bsc, bse, bsg]
  norm_num
  refine add_nonneg ?_ (add_nonneg ?_ (add_nonneg ?_ ?_))
  · apply truncInt_nonneg
    have h1 : (0 : ℚ) ≤ B * (7 / 20) := by linarith
    have h2 : (0 : ℚ) ≤
        B * (7 / 20) * (1 ⊓ (1 / 2 + (m : ℚ) / (d : ℚ) * (1 / 2))) :=
      mul_nonneg h1 heff
    have h3 : (0 : ℚ) ≤
        B * (7 / 20) * (1 ⊓ (1 / 2 + (m : ℚ) / (d : ℚ) * (1 / 2))) /
          (17 / 2) :=
      div_nonneg h2 (by norm_num)
    have h4 := mul_nonneg h3 (by norm_num : (0 : ℚ) ≤ 1 / 40)
    exact mul_nonneg h4 (by norm_num : (0 : ℚ) ≤ 1 / 5)
  · apply truncInt_nonneg
    norm_num
  · apply truncInt_nonneg
    norm_num
  · apply truncInt_nonneg
    norm_num

open TopCalc in
theorem topMonthRevenue_nonneg (B : ℚ) (hB : 0 ≤ B) (d m : ℕ) :
    0 ≤ ((topMonthResults B d m).map (fun r => r.total_revenue)).sum := by
  have hcl : ("content_marketing" : String) ≠ "linkedin_ads" := by decide
  have hel : ("email_marketing" : String) ≠ "linkedin_ads" := by decide
  have hec : ("email_marketing" : String) ≠ "content_marketing" := by decide
  have hsl : ("seo" : String) ≠ "linkedin_ads" := by decide
  have hsc : ("seo" : String) ≠ "content_marketing" := by decide
  have hse : ("seo" : String) ≠ "email_marketing" := by decide
  have hsg : ("seo" : String) ≠ "google_ads" := by decide
  have bcl : (("content_marketing" : String) == "linkedin_ads") = false := by
    decide
  have bel : (("email_marketing" : String) == "linkedin_ads") = false := by
    decide
  have bec : (("email_marketing" : String) == "content_marketing") = false :=
    by decide
  have bsl : (("seo" : String) == "linkedin_ads") = false := by decide
  have bsc : (("seo" : String) == "content_marketing") = false := by decide
  have bse : (("seo" : String) == "email_marketing") = false := by decide
  have bsg : (("seo" : String) == "google_ads") = false := by decide
  have heff : (0 : ℚ) ≤ 1 ⊓ (1 / 2 + (m : ℚ) / (d : ℚ) * (1 / 2)) := by
    apply le_min
    · norm_num
    · positivity
  simp only [topMonthResults, proj_allocation, List.map_cons, List.map_nil,
    calcOk, funnel, channel_metrics, List.lookup, List.sum_cons, List.sum_nil,
    hcl, hel, hec, hsl, hsc, hse, hsg, bcl, bel, bec, bsl, bsc, bse, bsg]
  norm_num
  have h1 : (0 : ℚ) ≤ B * (7 / 20) := by linarith
  have h2 : (0 : ℚ) ≤
      B * (7 / 20) * (1 ⊓ (1 / 2 + (m : ℚ) / (d : ℚ) * (1 / 2))) :=
    mul_nonneg h1 heff
  nlinarith [h2]

open TopCalc in
theorem topProjectRows_chain (B : ℚ) (hB : 0 ≤ B) (d : ℕ) :
    ∀ (k m : ℕ) (c : ℤ) (r : ℚ),
      List.Chain' (fun a b : TRow =>
        a.cumulative_customers ≤ b.cumulative_customers ∧
        a.cumulative_revenue ≤ b.cumulative_revenue)
        (projectRows B d k m c r) := by
  intro k
  induction k with
  | zero => intro m c r; simp [projectRows]
  | succ n ih =>
      intro m c r
      simp only [projectRows]
      apply List.chain'_cons'.mpr
      refine ⟨?_, ih _ _ _⟩
      intro y hy
      rcases n with _ | n'
      · simp [projectRows] at hy
      · simp only [projectRows, List.head?_cons, Option.mem_def,
          Option.some.injEq] at hy
        subst hy
        dsimp only
        constructor
        · have := topMonthCustomers_nonneg B hB d (m + 1)
          omega
        · have := topMonthRevenue_nonneg B hB d (m + 1)
          linarith

open BackendCalc in
theorem monthOrganic_nonneg (B : ℚ) (hB : 0 ≤ B) : 0 ≤ monthOrganic B := by
  have hcl : ("content_marketing" : String) ≠ "linkedin_ads" := by decide
  have hel : ("email_marketing" : String) ≠ "linkedin_ads" := by decide
  have hec : ("email_marketing" : String) ≠ "content_marketing" := by decide
  have bcl : (("content_marketing" : String) == "linkedin_ads") = false := by
    decide
  have bel : (("email_marketing" : String) == "linkedin_ads") = false := by
    decide
  have bec : (("email_marketing" : String) == "content_marketing") = false :=
    by decide
  simp only [monthOrganic, proj_channel_allocation, projChannelCustomers,
    CHANNEL_BENCHMARKS, List.lookup, List.map_cons, List.map_nil,
    List.sum_cons, List.sum_nil, hcl, hel, hec, bcl, bel, bec]
  norm_num
  linarith

open BackendCalc in
theorem backendProjectRows_chain (B : ℚ) (hB : 0 ≤ B) :
    ∀ (k m : ℕ) (c r i : ℚ), 0 ≤ c →
      List.Chain' (fun a b : BRow =>
        a.cumulative_customers ≤ b.cumulative_customers ∧
        a.cumulative_revenue ≤ b.cumulative_revenue)
        (projectRows B k m c r i) := by
  have hviral : ∀ c : ℚ, 0 ≤ c → 0 ≤ c * VIRAL_COEFFICIENT := by
    intro c hc
    have : (0 : ℚ) ≤ VIRAL_COEFFICIENT := by norm_num [VIRAL_COEFFICIENT]
    exact mul_nonneg hc this
  intro k
  induction k with
  | zero => intro m c r i hc; simp [projectRows]
  | succ n ih =>
      intro m c r i hc
      simp only [projectRows]
      have hc' : 0 ≤ c + (monthOrganic B + c * VIRAL_COEFFICIENT) := by
        have h1 := monthOrganic_nonneg B hB
        have h2 := hviral c hc
        linarith
      apply List.chain'_cons'.mpr
      refine ⟨?_, ih _ _ _ _ hc'⟩
      intro y hy
      rcases n with _ | n'
      · simp [projectRows] at hy
      · simp only [projectRows, List.head?_cons, Option.mem_def,
          Option.some.injEq] at hy
        subst hy
        dsimp only
        have hinc : 0 ≤ monthOrganic B +
            (c + (monthOrganic B + c * VIRAL_COEFFICIENT)) *
              VIRAL_COEFFICIENT := by
          have h1 := monthOrganic_nonneg B hB
          have h2 := hviral _ hc'
          linarith
        constructor
        · exact truncInt_mono hc' (by linarith)
        · have hmul : 0 ≤ (c + (monthOrganic B + c * VIRAL_COEFFICIENT) +
              (monthOrganic B +
                (c + (monthOrganic B + c * VIRAL_COEFFICIENT)) *
                  VIRAL_COEFFICIENT)) * MONTHLY_SUBSCRIPTION_VALUE := by
            apply mul_nonneg
            · linarith
            · norm_num [MONTHLY_SUBSCRIPTION_VALUE]
          linarith

/-! ## Claim C1: tiered allocation percentages -/

/- C1 counterexample: optimize_budget_allocation(10000, [linkedin_ads,
content_marketing, email_marketing]) — all candidates resolve, no
constraints — allocates 5000/3000/2000 to the ranked channels
(content_marketing, email_marketing, linkedin_ads), the 50/30/20 tier of
ALLOCATION_STRATEGY, not the claimed 60/30/10: the top share misses 6000 by
1000 and the third share misses 1000 by 1000, both far beyond 0.1. -/
unseal Rat.add Rat.mul Rat.inv Rat.sub Rat.ofScientific Nat.gcd in
theorem c1_counterexample :
    (BackendCalc.optimize_budget_allocation 10000
      ["linkedin_ads", "content_marketing",
       "email_marketing"]).optimized_allocation.map
      (fun e => (e.1, e.2.budget)) =
      [("content_marketing", 5000), ("email_marketing", 3000),
       ("linkedin_ads", 2000)] ∧
    ¬((6000 : ℚ) - 5000 ≤ 1 / 10) ∧ ¬((2000 : ℚ) - 1000 ≤ 1 / 10) := by
  refine ⟨by decide, by decide, by decide⟩

/-- C1 (corrected): for unconstrained calls whose candidates all resolve in
the benchmark table (no duplicates), the allocated budgets by rank are: one
candidate 100%; two candidates 62.5%/37.5%; three candidates 50%/30%/20% of
the total budget — not 70/30 and 60/30/10. -/
theorem c1_tiered_allocation (B : ℚ) (chans : List String) (hB : 0 < B)
    (hK : ∀ c ∈ chans, BackendCalc.isKnown c = true) (hN : chans.Nodup) :
    (chans.length = 1 →
      (BackendCalc.optimize_budget_allocation B chans).optimized_allocation.map
        (fun e => e.2.budget) = [B]) ∧
    (chans.length = 2 →
      (BackendCalc.optimize_budget_allocation B chans).optimized_allocation.map
        (fun e => e.2.budget) = [B * (5 / 8), B * (3 / 8)]) ∧
    (chans.length = 3 →
      (BackendCalc.optimize_budget_allocation B chans).optimized_allocation.map
        (fun e => e.2.budget) = [B * (1 / 2), B * (3 / 10), B * (1 / 5)]) := by
  have hfil : chans.filter (fun c => BackendCalc.isKnown c) = chans :=
    List.filter_eq_self.mpr hK
  have hded : BackendCalc.dedupFirst chans = chans := dedupFirst_eq_self chans hN
  have hopt : (BackendCalc.optimize_budget_allocation B
        chans).optimized_allocation =
      BackendCalc.tierAllocation B (BackendCalc.rankedChannels chans) := rfl
  have hlen : (BackendCalc.rankedChannels chans).length = chans.length := by
    rw [BackendCalc.rankedChannels, length_sortDesc, List.length_map, hfil,
      hded]
  refine ⟨fun h1 => ?_, fun h2 => ?_, fun h3 => ?_⟩ <;> rw [hopt]
  · have hl : (BackendCalc.rankedChannels chans).length = 1 := by
      rw [hlen]; exact h1
    rcases hr : BackendCalc.rankedChannels chans with _ | ⟨a, _ | ⟨b, t⟩⟩ <;>
      rw [hr] at hl <;> simp at hl
    exact tier_budgets_one B a
  · have hl : (BackendCalc.rankedChannels chans).length = 2 := by
      rw [hlen]; exact h2
    rcases hr : BackendCalc.rankedChannels chans with
        _ | ⟨a, _ | ⟨b, _ | ⟨c, t⟩⟩⟩ <;>
      rw [hr] at hl <;> simp at hl
    exact tier_budgets_two B a b
  · have hl : (BackendCalc.rankedChannels chans).length = 3 := by
      rw [hlen]; exact h3
    rcases hr : BackendCalc.rankedChannels chans with
        _ | ⟨a, _ | ⟨b, _ | ⟨c, t⟩⟩⟩ <;>
      rw [hr] at hl <;> simp at hl
    exact tier_budgets_three B a b c t

/-- Witness for C1 at budget 10000 and three resolving candidates: budgets
are 50%/30%/20% of 10000 in rank order. -/
theorem c1_witness :
    (BackendCalc.optimize_budget_allocation 10000
      ["linkedin_ads", "content_marketing",
       "email_marketing"]).optimized_allocation.map
      (fun e => e.2.budget) =
      [10000 * (1 / 2), 10000 * (3 / 10), 10000 * (1 / 5)] :=
  (c1_tiered_allocation 10000
    ["linkedin_ads", "content_marketing", "email_marketing"]
    (by norm_num) (by decide) (by decide)).2.2 (by decide)

/-! ## Claim C2: linkedin_ads end-to-end example -/

/-- C2: `calculate_campaign_roi("linkedin_ads", 5000)` returns customers = 18
(truncated from exactly 18), revenue = 42984.0 and roi = 759.7; and these
figures are consistent with an effective budget of 4250 (= 5000 · 0.85),
500 clicks (= 4250 / 8.5) and a click→customer rate of 0.036, because the
stored conversion rate 0.0036 equals 0.85 · 0.036 / 8.5. -/
theorem c2_linkedin_example :
    RoiCalcPkg.calculate_campaign_roi RoiCalcPkg.linkedinName 5000 =
      .ok ⟨18, 42984, 7597 / 10⟩ ∧
    (5000 : ℚ) * 0.85 = 4250 ∧
    (4250 : ℚ) / 8.5 = 500 ∧
    truncInt ((500 : ℚ) * 0.036) = 18 ∧
    ((RoiCalcPkg.CHANNEL_METRICS.lookup RoiCalcPkg.linkedinName).getD
        ⟨0, 0⟩).conversion_rate = 0.85 * 0.036 / 8.5 := by
  refine ⟨?_, by norm_num, by norm_num,
    by unfold truncInt; norm_num,
    by simp [RoiCalcPkg.CHANNEL_METRICS, RoiCalcPkg.linkedinName,
             List.lookup]; norm_num⟩
  simp only [RoiCalcPkg.calculate_campaign_roi, RoiCalcPkg.isKnown,
    RoiCalcPkg.metricKeys, RoiCalcPkg.CHANNEL_METRICS, RoiCalcPkg.linkedinName,
    List.lookup, List.map]
  norm_num [truncInt, pyRound1]

/-! ## Claim C3: milestone sentinels -/

/- C3 counterexample: in project_growth_trajectory(75, 1) the 100-customer
milestone is reached in no month (the only month reports 78 cumulative
customers), yet it is reported as month 0 — precisely the sentinel the
claim forbids. -/
unseal Rat.add Rat.mul Rat.inv Rat.sub Rat.ofScientific Nat.gcd in
theorem c3_counterexample :
    (∀ m ∈ (BackendCalc.project_growth_trajectory 75 1).monthly_breakdown,
      m.cumulative_customers < 100) ∧
    (BackendCalc.project_growth_trajectory
      75 1).key_milestones.first_100_customers = 0 := by
  refine ⟨by decide, by decide⟩

/-- C3 (corrected): every milestone — first_10, first_50, first_100 and
break-even — whose condition holds at no month within the horizon is
reported as month 0 (months are 1-based, so 0 is outside the range of real
months, but it is the integer 0, not a distinguished "not reached" value);
and whenever the final month's cumulative revenue is at least the
cumulative investment, the break-even milestone reports a month between 1
and the final month. -/
theorem c3_milestones (B : ℚ) (d : ℕ) (hd : 1 ≤ d) :
    (∀ m ∈ (BackendCalc.project_growth_trajectory B d).monthly_breakdown,
       1 ≤ m.month ∧ m.month ≤ d) ∧
    ((∀ m ∈ (BackendCalc.project_growth_trajectory B d).monthly_breakdown,
        m.cumulative_customers < 10) →
      (BackendCalc.project_growth_trajectory
        B d).key_milestones.first_10_customers = 0) ∧
    ((∀ m ∈ (BackendCalc.project_growth_trajectory B d).monthly_breakdown,
        m.cumulative_customers < 50) →
      (BackendCalc.project_growth_trajectory
        B d).key_milestones.first_50_customers = 0) ∧
    ((∀ m ∈ (BackendCalc.project_growth_trajectory B d).monthly_breakdown,
        m.cumulative_customers < 100) →
      (BackendCalc.project_growth_trajectory
        B d).key_milestones.first_100_customers = 0) ∧
    ((∀ m ∈ (BackendCalc.project_growth_trajectory B d).monthly_breakdown,
        m.cumulative_revenue < m.cumulative_investment) →
      (BackendCalc.project_growth_trajectory
        B d).key_milestones.break_even_month = 0) ∧
    (((BackendCalc.project_growth_trajectory B d).monthly_breakdown.getLastD
        ⟨0, 0, 0, 0, 0, 0, 0⟩).cumulative_investment ≤
       ((BackendCalc.project_growth_trajectory B d).monthly_breakdown.getLastD
        ⟨0, 0, 0, 0, 0, 0, 0⟩).cumulative_revenue →
      1 ≤ (BackendCalc.project_growth_trajectory
        B d).key_milestones.break_even_month ∧
      (BackendCalc.project_growth_trajectory
        B d).key_milestones.break_even_month ≤ d) := by
  have hbd : (BackendCalc.project_growth_trajectory B d).monthly_breakdown =
      BackendCalc.projectRows B d 1 0 0 0 := rfl
  have hbounds : ∀ x ∈ BackendCalc.projectRows B d 1 0 0 0,
      1 ≤ x.month ∧ x.month ≤ d := by
    intro x hx
    obtain ⟨h1, h2⟩ := projectRows_month_bounds B d 1 0 0 0 x hx
    omega
  refine ⟨by rw [hbd]; exact hbounds, ?_, ?_, ?_, ?_, ?_⟩
  · intro h
    have h10 : BackendCalc.Milestones.first_10_customers
        (BackendCalc.project_growth_trajectory B d).key_milestones =
        BackendCalc.firstMonthWhere
          (fun m => decide (10 ≤ m.cumulative_customers))
          (BackendCalc.projectRows B d 1 0 0 0) := rfl
    rw [h10]
    apply firstMonthWhere_eq_zero
    intro x hx
    rw [hbd] at h
    exact decide_eq_false (not_le.mpr (h x hx))
  · intro h
    have h50 : BackendCalc.Milestones.first_50_customers
        (BackendCalc.project_growth_trajectory B d).key_milestones =
        BackendCalc.firstMonthWhere
          (fun m => decide (50 ≤ m.cumulative_customers))
          (BackendCalc.projectRows B d 1 0 0 0) := rfl
    rw [h50]
    apply firstMonthWhere_eq_zero
    intro x hx
    rw [hbd] at h
    exact decide_eq_false (not_le.mpr (h x hx))
  · intro h
    have h100 : BackendCalc.Milestones.first_100_customers
        (BackendCalc.project_growth_trajectory B d).key_milestones =
        BackendCalc.firstMonthWhere
          (fun m => decide (100 ≤ m.cumulative_customers))
          (BackendCalc.projectRows B d 1 0 0 0) := rfl
    rw [h100]
    apply firstMonthWhere_eq_zero
    intro x hx
    rw [hbd] at h
    exact decide_eq_false (not_le.mpr (h x hx))
  · intro h
    have hbe0 : BackendCalc.Milestones.break_even_month
        (BackendCalc.project_growth_trajectory B d).key_milestones =
        BackendCalc.firstMonthWhere
          (fun m => decide (m.cumulative_investment ≤ m.cumulative_revenue))
          (BackendCalc.projectRows B d 1 0 0 0) := rfl
    rw [hbe0]
    apply firstMonthWhere_eq_zero
    intro x hx
    rw [hbd] at h
    exact decide_eq_false (not_le.mpr (h x hx))
  · intro hlast
    have hne : BackendCalc.projectRows B d 1 0 0 0 ≠ [] := by
      intro hnil
      have := projectRows_length B d 1 0 0 0
      rw [hnil] at this
      simp at this
      omega
    have hmem := getLastD_mem (BackendCalc.projectRows B d 1 0 0 0)
      ⟨0, 0, 0, 0, 0, 0, 0⟩ hne
    have hbe : BackendCalc.Milestones.break_even_month
        (BackendCalc.project_growth_trajectory B d).key_milestones =
        BackendCalc.firstMonthWhere
          (fun m => decide (m.cumulative_investment ≤ m.cumulative_revenue))
          (BackendCalc.projectRows B d 1 0 0 0) := rfl
    obtain ⟨y, hy, hpy, heq⟩ := firstMonthWhere_mem
      (p := fun m => decide (m.cumulative_investment ≤ m.cumulative_revenue))
      ⟨_, hmem, decide_eq_true (by rw [hbd] at hlast; exact hlast)⟩
    rw [hbe, heq]
    exact hbounds y hy

/- Witness for C3 at project_growth_trajectory(75, 1): every month reports
fewer than 100 cumulative customers, so the first_100 milestone is 0; and
the final month's cumulative revenue (15760) exceeds the cumulative
investment (75), so the break-even milestone reports month 1. -/
unseal Rat.add Rat.mul Rat.inv Rat.sub Rat.ofScientific Nat.gcd in
theorem c3_witness :
    (BackendCalc.project_growth_trajectory
      75 1).key_milestones.first_100_customers = 0 ∧
    1 ≤ (BackendCalc.project_growth_trajectory
      75 1).key_milestones.break_even_month ∧
    (BackendCalc.project_growth_trajectory
      75 1).key_milestones.break_even_month ≤ 1 :=
  ⟨(c3_milestones 75 1 (le_refl 1)).2.2.2.1 (by decide),
   (c3_milestones 75 1 (le_refl 1)).2.2.2.2.2 (by decide)⟩

/-! ## Claim C4: unknown channels -/

/- C4 counterexample: optimize_budget_allocation(1000, [unknown_channel,
linkedin_ads, google_ads]) contains a channel id absent from the benchmark
table, yet no error is raised: the optimizer silently drops the unknown
candidate and returns an allocation over the two known channels only. -/
unseal Rat.add Rat.mul Rat.inv Rat.sub Rat.ofScientific Nat.gcd in
theorem c4_counterexample :
    BackendCalc.isKnown ("unknown_channel") = false ∧
    (BackendCalc.optimize_budget_allocation 1000
      ["unknown_channel", "linkedin_ads",
       "google_ads"]).optimized_allocation.map Prod.fst =
      ["linkedin_ads", "google_ads"] := by
  refine ⟨by decide, by decide⟩

/-- C4 (corrected): the single-channel estimate raises `ValueError` naming
the invalid id and carrying the list of valid ids; but the optimizer never
raises for unknown candidates — it silently skips them, returning the same
plan as if only the known candidates had been supplied. -/
theorem c4_unknown_channel :
    (∀ (ch : String) (b dm : ℚ), BackendCalc.isKnown ch = false →
      BackendCalc.calculate_campaign_roi ch b dm =
        .error (.unknownChannel ⟨ch, BackendCalc.benchKeys⟩)) ∧
    (∀ (B : ℚ) (chans : List String),
      BackendCalc.optimize_budget_allocation B chans =
        BackendCalc.optimize_budget_allocation B
          (chans.filter (fun c => BackendCalc.isKnown c))) := by
  constructor
  · intro ch b dm h
    simp [BackendCalc.calculate_campaign_roi, h]
  · intro B chans
    unfold BackendCalc.optimize_budget_allocation BackendCalc.rankedChannels
    rw [List.filter_filter]
    simp

/-- Witness for C4: the estimate on "not_a_channel" errors with the invalid
id and the full key list; and the optimizer on a list containing the unknown
id "x" equals the optimizer on the list with "x" filtered out. -/
theorem c4_witness :
    BackendCalc.calculate_campaign_roi ("not_a_channel") 1000 3 =
      .error (.unknownChannel ⟨"not_a_channel", BackendCalc.benchKeys⟩) ∧
    BackendCalc.optimize_budget_allocation 500 ["x", "linkedin_ads"] =
      BackendCalc.optimize_budget_allocation 500
        (["x", "linkedin_ads"].filter (fun c => BackendCalc.isKnown c)) :=
  ⟨c4_unknown_channel.1 ("not_a_channel") 1000 3 (by decide),
   c4_unknown_channel.2 500 ["x", "linkedin_ads"]⟩

/-! ## Claim C5: budget conservation -/

/- C5 counterexample: the valid input (total budget 10000, candidate list
[linkedin_ads, linkedin_ads] — positive budget, non-empty, every candidate
resolves) yields the allocation with linkedin_ads at 5000: the duplicated
candidate doubles total_weight but occupies one dict key, so the allocated
sum is 5000, off the total budget by 5000, far beyond 0.01. -/
unseal Rat.add Rat.mul Rat.inv Rat.sub Rat.ofScientific Nat.gcd in
theorem c5_counterexample :
    BackendAlloc.optimize_budget_allocation 10000
      ["linkedin_ads", "linkedin_ads"] none =
      .ok [("linkedin_ads", 5000)] ∧
    ¬((10000 : ℚ) - 5000 ≤ 1 / 100) := by
  refine ⟨by decide, by decide⟩

/-- C5 (corrected): the allocated budgets sum to the total budget exactly
provided the candidate list contains no duplicate channel ids — for
backend/roi_calc.py when every candidate resolves in the default weight
table, and for backend/roi_calculator.py whenever at least one candidate
resolves (its dict keying deduplicates candidates). -/
theorem c5_conservation :
    (∀ (B : ℚ) (chans : List String), 0 < B → chans ≠ [] → chans.Nodup →
      (∀ c ∈ chans, c ∈ BackendAlloc.DEFAULT_ALLOCATIONS.map Prod.fst) →
      ∃ alloc, BackendAlloc.optimize_budget_allocation B chans none =
        .ok alloc ∧ (alloc.map Prod.snd).sum = B) ∧
    (∀ (B : ℚ) (chans : List String), 0 < B →
      (∃ c ∈ chans, BackendCalc.isKnown c = true) →
      ((BackendCalc.optimize_budget_allocation
        B chans).optimized_allocation.map (fun e => e.2.budget)).sum = B) := by
  constructor
  · intro B chans hB hne hN hres
    have hw : ∀ c ∈ chans,
        ∃ w, BackendAlloc.DEFAULT_ALLOCATIONS.lookup c = some w ∧ 0 < w :=
      fun c hc => default_lookup_pos c (hres c hc)
    have hsome : ∀ c ∈ chans,
        (BackendAlloc.DEFAULT_ALLOCATIONS.lookup c).isSome = true := by
      intro c hc
      obtain ⟨w, hw1, _⟩ := hw c hc
      simp [hw1]
    have hfp := firstPass_spec BackendAlloc.DEFAULT_ALLOCATIONS chans ([], 0)
      hN hsome (by simp)
    have hpos : ∀ c ∈ chans,
        0 < (BackendAlloc.DEFAULT_ALLOCATIONS.lookup c).getD 0 := by
      intro c hc
      obtain ⟨w, hw1, hw2⟩ := hw c hc
      simp [hw1, hw2]
    have hWpos : 0 < (chans.map
        (fun c => (BackendAlloc.DEFAULT_ALLOCATIONS.lookup c).getD 0)).sum := by
      apply List.sum_pos
      · intro x hx
        obtain ⟨c, hc, rfl⟩ := List.mem_map.mp hx
        exact hpos c hc
      · simpa using hne
    rw [BackendAlloc.optimize_budget_allocation, if_neg (not_le.mpr hB),
      if_neg hne]
    dsimp only
    rw [hfp]
    simp only [List.nil_append, zero_add]
    rw [if_pos hWpos]
    refine ⟨_, rfl, ?_⟩
    set W := (chans.map
      (fun c => (BackendAlloc.DEFAULT_ALLOCATIONS.lookup c).getD 0)).sum
      with hWdef
    have h1 : (((chans.map
        (fun c => (c, (BackendAlloc.DEFAULT_ALLOCATIONS.lookup c).getD 0))).map
          (fun p => if p.2 > 0 then (p.1, p.2 / W * B) else p)).map
            Prod.snd) =
        chans.map
          (fun c => ((BackendAlloc.DEFAULT_ALLOCATIONS.lookup c).getD 0) /
            W * B) := by
      rw [List.map_map, List.map_map]
      apply List.map_congr_left
      intro c hc
      simp only [Function.comp]
      rw [if_pos (hpos c hc)]
    rw [h1]
    have h2 : chans.map
        (fun c => ((BackendAlloc.DEFAULT_ALLOCATIONS.lookup c).getD 0) /
          W * B) =
        (chans.map
          (fun c => (BackendAlloc.DEFAULT_ALLOCATIONS.lookup c).getD 0)).map
          (fun w => w / W * B) := by
      rw [List.map_map]
      rfl
    rw [h2, sum_map_div_mul, ← hWdef, div_self (ne_of_gt hWpos), one_mul]
  · intro B chans hB hex
    have hopt : (BackendCalc.optimize_budget_allocation
          B chans).optimized_allocation =
        BackendCalc.tierAllocation B (BackendCalc.rankedChannels chans) := rfl
    obtain ⟨c0, hc0, hk0⟩ := hex
    have hmem : c0 ∈ chans.filter (fun c => BackendCalc.isKnown c) :=
      List.mem_filter.mpr ⟨hc0, hk0⟩
    have hlen : 1 ≤ (BackendCalc.rankedChannels chans).length := by
      rw [BackendCalc.rankedChannels, length_sortDesc, List.length_map]
      rcases hf : chans.filter (fun c => BackendCalc.isKnown c) with
          _ | ⟨e, es⟩
      · rw [hf] at hmem
        cases hmem
      · rw [BackendCalc.dedupFirst, BackendCalc.dedupFirstAux]
        simp
    rw [hopt]
    rcases hr : BackendCalc.rankedChannels chans with
        _ | ⟨a, _ | ⟨b, _ | ⟨c, t⟩⟩⟩
    · rw [hr] at hlen
      simp at hlen
    · rw [tier_budgets_one]
      simp
    · rw [tier_budgets_two]
      simp
      ring
    · rw [tier_budgets_three]
      simp
      ring

/-- Witness for C5: with budget 10000 and the three default channels
(no duplicates) roi_calc.py returns an allocation summing to 10000; and the
roi_calculator.py plan's budgets also sum to 10000. -/
theorem c5_witness :
    (∃ alloc, BackendAlloc.optimize_budget_allocation 10000
      ["linkedin_ads", "content_marketing", "email_marketing"] none =
        .ok alloc ∧ (alloc.map Prod.snd).sum = 10000) ∧
    ((BackendCalc.optimize_budget_allocation 10000
      ["linkedin_ads"]).optimized_allocation.map
        (fun e => e.2.budget)).sum = 10000 :=
  ⟨c5_conservation.1 10000
    ["linkedin_ads", "content_marketing", "email_marketing"]
    (by norm_num) (by decide) (by decide) (by decide),
   c5_conservation.2 10000 ["linkedin_ads"] (by norm_num) (by decide)⟩

/-! ## Claim C6: flooring of funnel stages -/

/- C6 counterexample: calculate_campaign_roi("linkedin_ads", 1000, 3)
reports 26 customers (truncated from 80/3) but revenue 64000, which is
(80/3)·2400 and not 26·2400 = 62400: stage counts are not floored before
the next stage, and revenue derives from the fractional customer count. -/
unseal Rat.add Rat.mul Rat.inv Rat.sub Rat.ofScientific Nat.gcd in
theorem c6_counterexample :
    BackendCalc.calculate_campaign_roi BackendCalc.linkedinName 1000 3 =
      .ok ⟨"linkedin_ads", 1000, 3, 1000 / 3, 26, 64000, 63000, 6300, 64,
           75 / 2, 128, 3 / 16⟩ ∧
    ¬((64000 : ℚ) = ((26 : ℤ) : ℚ) * 2400) := by
  refine ⟨by decide, by decide⟩

/-- C6 (corrected): for every known channel the funnel-stage counts stay
fractional; only the reported customer count is truncated, at output time,
and total revenue is the *fractional* customer count times the average
customer value (2400). -/
theorem c6_floor_at_output (ch : String) (b dm : ℚ)
    (h : BackendCalc.isKnown ch = true) :
    BackendCalc.calculate_campaign_roi ch b dm =
      .ok (BackendCalc.calcOk ch b dm) ∧
    (BackendCalc.calcOk ch b dm).total_revenue =
      BackendCalc.fractionalCustomers ch b dm * 2400 ∧
    (BackendCalc.calcOk ch b dm).customers_acquired =
      truncInt (BackendCalc.fractionalCustomers ch b dm) := by
  refine ⟨by simp [BackendCalc.calculate_campaign_roi, h], ?_, ?_⟩ <;>
  · have hm : ch ∈ BackendCalc.benchKeys := of_decide_eq_true h
    simp only [BackendCalc.benchKeys, BackendCalc.CHANNEL_BENCHMARKS,
      List.map_cons, List.map_nil, List.mem_cons, List.not_mem_nil,
      or_false] at hm
    rcases hm with h1 | h1 | h1 | h1 <;> subst h1 <;>
      simp [BackendCalc.calcOk, BackendCalc.fractionalCustomers,
        BackendCalc.CHANNEL_BENCHMARKS, List.lookup]

/-- Witness for C6 at ("linkedin_ads", 1000, 3). -/
theorem c6_witness :
    BackendCalc.calculate_campaign_roi BackendCalc.linkedinName 1000 3 =
      .ok (BackendCalc.calcOk BackendCalc.linkedinName 1000 3) ∧
    (BackendCalc.calcOk BackendCalc.linkedinName 1000 3).total_revenue =
      BackendCalc.fractionalCustomers BackendCalc.linkedinName 1000 3 * 2400 ∧
    (BackendCalc.calcOk BackendCalc.linkedinName 1000 3).customers_acquired =
      truncInt (BackendCalc.fractionalCustomers BackendCalc.linkedinName
        1000 3) :=
  c6_floor_at_output BackendCalc.linkedinName 1000 3 (by decide)

/-! ## Claim C7: cost-per-customer sentinel -/

/- C7 counterexample: calculate_campaign_roi("linkedin_ads", 10, 1) has a
reported customer count of 0, yet its cost_per_customer is 37.5, the budget
divided by the fractional count 4/15, not the budget 10 itself: the code's
guard tests the fractional count, and its fallback value is 0, not the
budget. -/
unseal Rat.add Rat.mul Rat.inv Rat.sub Rat.ofScientific Nat.gcd in
theorem c7_counterexample :
    BackendCalc.calculate_campaign_roi BackendCalc.linkedinName 10 1 =
      .ok ⟨"linkedin_ads", 10, 1, 10, 0, 640, 630, 6300, 64, 75 / 2, 128,
           3 / 16⟩ ∧
    ¬((75 : ℚ) / 2 = 10) := by
  refine ⟨by decide, by decide⟩

/-- C7 (corrected): for linkedin_ads with any budget 0 < b < 37.5 the
reported customer count is 0 while cost_per_customer is 37.5 (budget divided
by the fractional customer count b·2/75), which differs from both the
claimed sentinel (the budget itself) and the code's unreachable 0
fallback. -/
theorem c7_cost_per_customer (b : ℚ) (hb : 0 < b) (hlt : b < 75 / 2) :
    BackendCalc.calculate_campaign_roi BackendCalc.linkedinName b 1 =
      .ok (BackendCalc.calcOk BackendCalc.linkedinName b 1) ∧
    (BackendCalc.calcOk BackendCalc.linkedinName b 1).customers_acquired
      = 0 ∧
    (BackendCalc.calcOk BackendCalc.linkedinName b 1).cost_per_customer =
      75 / 2 ∧
    (BackendCalc.calcOk BackendCalc.linkedinName b 1).cost_per_customer
      ≠ b ∧
    (BackendCalc.calcOk BackendCalc.linkedinName b 1).cost_per_customer
      ≠ 0 := by
  have hcust : (BackendCalc.calcOk
      BackendCalc.linkedinName b 1).customers_acquired = 0 := by
    simp only [BackendCalc.calcOk, BackendCalc.linkedinName,
      BackendCalc.CHANNEL_BENCHMARKS, List.lookup]
    norm_num
    rw [truncInt, if_pos (by linarith), Int.floor_eq_zero_iff]
    constructor
    · linarith
    · linarith
  have hcost : (BackendCalc.calcOk
      BackendCalc.linkedinName b 1).cost_per_customer = 75 / 2 := by
    simp only [BackendCalc.calcOk, BackendCalc.linkedinName,
      BackendCalc.CHANNEL_BENCHMARKS, List.lookup]
    norm_num
    rw [if_pos (by linarith)]
    field_simp
    ring
  refine ⟨by simp [BackendCalc.calculate_campaign_roi, BackendCalc.isKnown,
      BackendCalc.benchKeys, BackendCalc.CHANNEL_BENCHMARKS,
      BackendCalc.linkedinName], hcust, hcost, ?_, ?_⟩
  · rw [hcost]
    intro heq
    rw [← heq] at hlt
    exact absurd hlt (lt_irrefl _)
  · rw [hcost]
    norm_num

/-- Witness for C7 at budget 10. -/
theorem c7_witness :
    BackendCalc.calculate_campaign_roi BackendCalc.linkedinName 10 1 =
      .ok (BackendCalc.calcOk BackendCalc.linkedinName 10 1) ∧
    (BackendCalc.calcOk BackendCalc.linkedinName 10 1).customers_acquired
      = 0 ∧
    (BackendCalc.calcOk BackendCalc.linkedinName 10 1).cost_per_customer =
      75 / 2 ∧
    (BackendCalc.calcOk BackendCalc.linkedinName 10 1).cost_per_customer
      ≠ 10 ∧
    (BackendCalc.calcOk BackendCalc.linkedinName 10 1).cost_per_customer
      ≠ 0 :=
  c7_cost_per_customer 10 (by norm_num) (by norm_num)

/-! ## Claim C8: budget validation -/

/- C8 counterexample: backend/roi_calculator.py's
optimize_budget_allocation(-5, [linkedin_ads]) raises nothing and returns
an allocation assigning the full negative budget -5 to linkedin_ads. -/
unseal Rat.add Rat.mul Rat.inv Rat.sub Rat.ofScientific Nat.gcd in
theorem c8_counterexample :
    (BackendCalc.optimize_budget_allocation (-5)
      ["linkedin_ads"]).optimized_allocation.map
      (fun e => (e.1, e.2.budget)) = [("linkedin_ads", -5)] ∧
    ((-5 : ℚ) ≤ 0) := by
  refine ⟨by decide, by decide⟩

/-- C8 (corrected): backend/roi_calc.py's optimizer raises `ValueError` for
every non-positive total budget (in particular -5) and for an empty channel
list; backend/roi_calculator.py's optimizer performs no such validation and
returns a plan with negative budgets for `optimize(-5, [linkedin_ads])`. -/
theorem c8_budget_validation (B : ℚ) (chans : List String)
    (cw : Option (List (String × ℚ))) :
    (B ≤ 0 → BackendAlloc.optimize_budget_allocation B chans cw =
      .error (.valueError ("Total budget must be positive"))) ∧
    (0 < B → chans = [] →
      BackendAlloc.optimize_budget_allocation B chans cw =
        .error (.valueError ("At least one channel must be specified"))) := by
  constructor
  · intro h
    unfold BackendAlloc.optimize_budget_allocation
    rw [if_pos h]
  · intro hB he
    subst he
    unfold BackendAlloc.optimize_budget_allocation
    rw [if_neg (not_le.mpr hB), if_pos rfl]

/-- Witness for C8: `optimize(-5, [linkedin_ads])` raises the budget
`ValueError` in roi_calc.py, and `optimize(5, [])` raises the empty-channel
`ValueError`. -/
theorem c8_witness :
    BackendAlloc.optimize_budget_allocation (-5) ["linkedin_ads"] none =
      .error (.valueError ("Total budget must be positive")) ∧
    BackendAlloc.optimize_budget_allocation 5 [] none =
      .error (.valueError ("At least one channel must be specified")) :=
  ⟨(c8_budget_validation (-5) ["linkedin_ads"] none).1 (by norm_num),
   (c8_budget_validation 5 [] none).2 (by norm_num) rfl⟩

/-! ## Claim C9: cumulative monotonicity -/

/-- C9: in both projector variants, for every positive monthly budget and
duration at least 1, the reported cumulative_customers and
cumulative_revenue fields are non-decreasing between consecutive months. -/
theorem c9_cumulative_monotone :
    (∀ (B : ℚ) (d : ℕ), 0 < B → 1 ≤ d →
      List.Chain' (fun a b : BackendCalc.BRow =>
        a.cumulative_customers ≤ b.cumulative_customers ∧
        a.cumulative_revenue ≤ b.cumulative_revenue)
        (BackendCalc.project_growth_trajectory B d).monthly_breakdown) ∧
    (∀ (B : ℚ) (d : ℕ), 0 < B → 1 ≤ d →
      List.Chain' (fun a b : TopCalc.TRow =>
        a.cumulative_customers ≤ b.cumulative_customers ∧
        a.cumulative_revenue ≤ b.cumulative_revenue)
        (TopCalc.project_growth_trajectory B d).monthly_breakdown) := by
  constructor
  · intro B d hB _
    exact backendProjectRows_chain B (le_of_lt hB) d 1 0 0 0 (le_refl 0)
  · intro B d hB _
    exact topProjectRows_chain B (le_of_lt hB) d d 1 0 0

/-- Witness for C9 at monthly budget 100 and duration 2, both variants. -/
theorem c9_witness :
    List.Chain' (fun a b : BackendCalc.BRow =>
      a.cumulative_customers ≤ b.cumulative_customers ∧
      a.cumulative_revenue ≤ b.cumulative_revenue)
      (BackendCalc.project_growth_trajectory 100 2).monthly_breakdown ∧
    List.Chain' (fun a b : TopCalc.TRow =>
      a.cumulative_customers ≤ b.cumulative_customers ∧
      a.cumulative_revenue ≤ b.cumulative_revenue)
      (TopCalc.project_growth_trajectory 100 2).monthly_breakdown :=
  ⟨c9_cumulative_monotone.1 100 2 (by norm_num) (by norm_num),
   c9_cumulative_monotone.2 100 2 (by norm_num) (by norm_num)⟩

/-! ## Claim C10: division by the caller-supplied budget -/

/-- C10: in src/roi_calculator/roi_calc.py, a call with a known channel and
budget = 0 raises `ZeroDivisionError` (not a validation error), while for any
positive budget the call succeeds: every division is defined. -/
theorem c10_zero_division (channel : String) (b : ℚ)
    (hk : RoiCalcPkg.isKnown channel = true) :
    (b = 0 →
      RoiCalcPkg.calculate_campaign_roi channel b =
        .error RoiCalcPkg.RcErr.zeroDivisionError) ∧
    (0 < b →
      exceptOk (RoiCalcPkg.calculate_campaign_roi channel b) = true) := by
  constructor
  · intro hb
    subst hb
    simp [RoiCalcPkg.calculate_campaign_roi, hk]
  · intro hb
    simp [RoiCalcPkg.calculate_campaign_roi, hk, hb.ne', exceptOk]

/-- Witness for C10 at channel "linkedin_ads": budget 0 raises
`ZeroDivisionError`, budget 5000 succeeds. -/
theorem c10_witness :
    (RoiCalcPkg.calculate_campaign_roi RoiCalcPkg.linkedinName 0 =
      .error RoiCalcPkg.RcErr.zeroDivisionError) ∧
    exceptOk (RoiCalcPkg.calculate_campaign_roi RoiCalcPkg.linkedinName 5000) =
      true :=
  ⟨(c10_zero_division RoiCalcPkg.linkedinName 0 (by decide)).1 rfl,
   (c10_zero_division RoiCalcPkg.linkedinName 5000 (by decide)).2
     (by norm_num)⟩
